import Mathlib

/-!
Shallow embedding of the bakery query-resolution logic.

Sources embedded here:
- `bakery_api_simplified.py`: `get_bakery_hours`, `check_menu_items`,
  `extract_day_from_query`, `extract_item_from_query`, `check_availability`
  and the POST `/check` handler (`check_availability_post`).
- `bakery_api_with_mcp.py`: `process_bakery_query`.

Modelling conventions:
- Python strings are Lean `String`s (lists of characters); the Python
  substring test `a in b` is embedded as `pyIn a b`, deciding whether the
  character list of `a` occurs contiguously inside the character list of `b`.
- Python `str.lower()` is `pyLower` (all strings involved are ASCII).
- The hours file read in `get_bakery_hours` is modelled by an
  `Option HoursTable` argument: `none` stands for an absent or unreadable
  `bakery_hours.json`, `some t` for a successfully parsed table `t`.
- A Python `dict` of day records is an association list `HoursTable`
  preserving insertion order (Python dict iteration order).
- `check_availability(item, day)` evaluates `item.lower()` inside the menu
  membership test; on `item = None` this raises `AttributeError` because the
  menu list is non-empty, so the embedding returns `Except.error` there and
  `Except.ok` with the response text on every other path.
-/

set_option maxRecDepth 16384

deriving instance DecidableEq for Except

/-- Scan for a contiguous occurrence of `n` in the second list, the way the
Python substring test walks the haystack left to right. -/
def occursIn (n : List Char) : List Char → Bool
  | [] => n.isEmpty
  | c :: t => n.isPrefixOf (c :: t) || occursIn n t

/-- Python substring test `needle in hay` (on the lowered strings the code
uses): true iff the characters of `needle` occur contiguously in `hay`. -/
def pyIn (needle hay : String) : Bool :=
  occursIn needle.data hay.data

/-- Python `str.lower()`: all strings involved are ASCII, where lowering is
the character-wise basic-latin `Char.toLower`. -/
def pyLower (s : String) : String :=
  ⟨s.data.map Char.toLower⟩

/-- Python `", ".join(listOfStrings)` (as used on the open-day names in
`check_availability`): empty string on the empty list, otherwise the
elements separated by `sep`. -/
def pyJoin (sep : String) : List String → String
  | [] => ""
  | [x] => x
  | x :: y :: rest => x ++ (sep ++ pyJoin sep (y :: rest))

/-- One value of the bakery-hours mapping: `{"open": ..., "hours": ...}`. -/
structure DayInfo where
  isOpen : Bool
  hours : String
deriving DecidableEq

/-- A bakery-hours mapping, as an insertion-ordered association list from
day name to its record (a Python `dict`). -/
abbrev HoursTable := List (String × DayInfo)

/-- The built-in fallback table from `get_bakery_hours`
(`bakery_api_simplified.py` lines 22-30). -/
def default_bakery_hours : HoursTable :=
  [("Monday", ⟨true, "7:00 AM - 7:00 PM"⟩),
   ("Tuesday", ⟨true, "7:00 AM - 7:00 PM"⟩),
   ("Wednesday", ⟨true, "7:00 AM - 7:00 PM"⟩),
   ("Thursday", ⟨true, "7:00 AM - 7:00 PM"⟩),
   ("Friday", ⟨true, "7:00 AM - 9:00 PM"⟩),
   ("Saturday", ⟨true, "8:00 AM - 9:00 PM"⟩),
   ("Sunday", ⟨false, "Closed"⟩)]

/-- `get_bakery_hours` (`bakery_api_simplified.py` lines 16-30): return the
parsed file contents when `bakery_hours.json` is readable, else the
built-in default table. -/
def get_bakery_hours (file : Option HoursTable) : HoursTable :=
  match file with
  | some t => t
  | none => default_bakery_hours

/-- `check_menu_items` (`bakery_api_simplified.py` lines 33-35). -/
def check_menu_items : List String :=
  ["bread", "cake", "croissant", "donut", "muffin", "pie", "cookie"]

/-- The seven canonical day names, the local `days` list of
`extract_day_from_query` (`bakery_api_simplified.py` line 39). -/
def days : List String :=
  ["Monday", "Tuesday", "Wednesday", "Thursday", "Friday", "Saturday", "Sunday"]

/-- `extract_day_from_query` (`bakery_api_simplified.py` lines 38-43): the
first day (in the order of `days`) whose lowercase name is a substring of
the lowercase query; `none` when no day matches. -/
def extract_day_from_query (query : String) : Option String :=
  days.find? fun day => pyIn (pyLower day) (pyLower query)

/-- `extract_item_from_query` (`bakery_api_simplified.py` lines 46-51): the
first menu item (in catalog order) whose lowercase name is a substring of
the lowercase query; `none` when no item matches. -/
def extract_item_from_query (query : String) : Option String :=
  check_menu_items.find? fun item => pyIn (pyLower item) (pyLower query)

/-- Response text of the not-carried branch (line 94). -/
def not_carried_response (item : String) : String :=
  "NO, we don\x27t carry " ++ (item ++ " at our bakery. Would you like to try something else?")

/-- Response text of the no-day branch (line 98). -/
def specify_day_response (item : String) : String :=
  "YES, " ++ (item ++ " is on our menu. Please specify which day you want it.")

/-- Response text of the open-day branch (line 102). -/
def open_day_response (item day hoursText : String) : String :=
  "YES, we have " ++ (item ++ (" available on " ++ (day ++ ("! Our hours are " ++ (hoursText ++ ".")))))

/-- The open days of a table, in table order: the Python comprehension
`[d for d in bakery_hours if bakery_hours[d]["open"]]` (line 104). -/
def openDays (h : HoursTable) : List String :=
  (h.filter fun p => p.2.isOpen).map fun p => p.1

/-- Response text of the closed-day branch (line 104). -/
def closed_day_response (day : String) (h : HoursTable) : String :=
  "NO, our bakery is closed on " ++ (day ++ (". We\x27re open " ++ (pyJoin ", " (openDays h) ++ ".")))

/-- Response text of the unknown-day branch (line 106). -/
def unsure_day_response (item : String) : String :=
  "I\x27m not sure about that day, but " ++ (item ++ " is on our menu. We\x27re open Monday through Saturday.")

/-- The tail of `check_availability` once the menu-membership test has
passed (`bakery_api_simplified.py` lines 96-106): Python first tests
`if not day` (true for `None` and for the empty string), then
`day in bakery_hours and bakery_hours[day]["open"]`, then
`day in bakery_hours`, with the unsure response as the final else. -/
def availability_given_on_menu (item : String) (day : Option String) (h : HoursTable) : String :=
  match day with
  | none => specify_day_response item
  | some d =>
    if d = "" then specify_day_response item
    else
      match List.lookup d h with
      | some info =>
        if info.isOpen then open_day_response item d info.hours
        else closed_day_response d h
      | none => unsure_day_response item

/-- `check_availability` (`bakery_api_simplified.py` lines 86-106).
The menu-membership test `any(menu_item.lower() == item.lower() ...)`
evaluates `item.lower()`; with `item = None` this raises `AttributeError`
(the menu list is non-empty), embedded as `Except.error`. Every other
path returns a response string, embedded as `Except.ok`. -/
def check_availability (item day : Option String) (file : Option HoursTable) :
    Except String String :=
  let bakery_hours := get_bakery_hours file
  match item with
  | none => .error "AttributeError: NoneType object has no attribute lower"
  | some it =>
    if check_menu_items.any (fun m => pyLower m == pyLower it) then
      .ok (availability_given_on_menu it day bakery_hours)
    else
      .ok (not_carried_response it)

/-- The JSON body produced by the `/check` POST handler: either
`{"response": text}` or, when `check_availability` raised and the
handler's `except` clause fired, `{"error": str(e)}`. -/
inductive ApiResult where
  | response (text : String)
  | error (err : String)
deriving DecidableEq

/-- The POST `/check` handler of `bakery_api_simplified.py` (lines 59-70):
extract day and item from the query, call `check_availability`, wrap the
result; an exception becomes an error body. -/
def check_availability_post (query : String) (file : Option HoursTable) : ApiResult :=
  match check_availability (extract_item_from_query query)
      (extract_day_from_query query) file with
  | .ok s => .response s
  | .error e => .error e

/-- `process_bakery_query` (`bakery_api_with_mcp.py` lines 276-343):
keyword classification with fixed priority
bread > cake > pastry > coffee > hours > menu > order > default,
with sub-keyword refinement inside each category. -/
def process_bakery_query (question : String) : String :=
  let query := pyLower question
  if pyIn "bread" query then
    if pyIn "whole wheat" query || pyIn "wheat" query then
      "Yes, we have whole wheat bread available daily until 5 PM."
    else if pyIn "sourdough" query then
      "Our signature sourdough bread is available Tuesday through Saturday, fresh-baked each morning."
    else if pyIn "gluten" query then
      "We offer gluten-free bread options on Mondays, Wednesdays, and Fridays."
    else
      "Yes, we have fresh bread available daily until 5 PM."
  else if pyIn "cake" query then
    if pyIn "chocolate" query then
      "Yes, our specialty chocolate cake is available all week!"
    else if pyIn "birthday" query then
      "We offer custom birthday cakes with 48 hours advance notice. Please call to place an order."
    else if pyIn "cheesecake" query then
      "Our New York style cheesecake is available Thursday through Sunday."
    else if pyIn "friday" query || pyIn "weekend" query then
      "Yes, we have cake available on Friday and the weekend."
    else
      "We have various cakes available. Please specify what type you\x27re looking for."
  else if pyIn "pastry" query || pyIn "pastries" query then
    if pyIn "croissant" query then
      "Our butter croissants are baked fresh every morning and typically sell out by noon."
    else
      "We offer a variety of pastries including croissants, danishes, and pain au chocolat."
  else if pyIn "coffee" query then
    "We serve freshly brewed coffee all day, with espresso drinks available until 30 minutes before closing."
  else if pyIn "hours" query || pyIn "open" query || pyIn "close" query || pyIn "closing" query then
    if pyIn "weekend" query || pyIn "saturday" query || pyIn "sunday" query then
      "Our weekend hours are 8 AM to 4 PM on both Saturday and Sunday."
    else
      "Our bakery is open Monday to Friday from 7 AM to 6 PM, and on weekends from 8 AM to 4 PM."
  else if pyIn "menu" query || pyIn "offer" query || pyIn "have" query then
    "We offer a variety of breads, cakes, pastries, and coffee. Our most popular items are sourdough bread, chocolate cake, and croissants."
  else if pyIn "order" query || pyIn "delivery" query || pyIn "pickup" query then
    "You can place orders in person, by phone, or through our website. We offer pickup and local delivery within 5 miles."
  else
    "Please ask about a specific bakery item, our hours, or ordering options, and I\x27ll be happy to help!"

/-- The four response strings of the bread category of
`process_bakery_query` (`bakery_api_with_mcp.py` lines 292-300). -/
def bread_responses : List String :=
  ["Yes, we have whole wheat bread available daily until 5 PM.",
   "Our signature sourdough bread is available Tuesday through Saturday, fresh-baked each morning.",
   "We offer gluten-free bread options on Mondays, Wednesdays, and Fridays.",
   "Yes, we have fresh bread available daily until 5 PM."]

/-- A loadable hours table in which no day is open, used to probe the
closed-day response when the table names no open day. -/
def all_closed_hours : HoursTable := [("Monday", ⟨false, "Closed"⟩)]

/-! Helper lemmas about the embedding. -/

theorem occursIn_iff (n : List Char) (h : List Char) : occursIn n h = true ↔ n <:+: h := by
  induction h with
  | nil => simp [occursIn, List.isEmpty_iff]
  | cons c t ih => simp [occursIn, ih, List.infix_cons_iff]

theorem pyIn_iff (needle hay : String) : pyIn needle hay = true ↔ needle.data <:+: hay.data :=
  occursIn_iff _ _

theorem pyIn_of_data_eq (needle hay : String) (l₁ l₂ : List Char)
    (hh : hay.data = l₁ ++ (needle.data ++ l₂)) : pyIn needle hay = true := by
  rw [pyIn_iff, hh, ← List.append_assoc]
  exact List.infix_append _ _ _

theorem data_head_append (a b : String) (c : Char) (h : a.data.head? = some c) :
    (a ++ b).data.head? = some c := by
  rw [String.data_append, List.head?_append, h]
  rfl

theorem str_ne_of_head (s t : String) (a b : Char) (hs : s.data.head? = some a)
    (ht : t.data.head? = some b) (hab : a ≠ b) : s ≠ t := by
  intro h
  rw [h, ht] at hs
  exact hab (Option.some.inj hs).symm

theorem find?_eq_some_first {α : Type} (p : α → Bool) (l : List α) (a : α) :
    l.find? p = some a ↔
      p a = true ∧ ∃ l₁ l₂, l = l₁ ++ a :: l₂ ∧ ∀ x ∈ l₁, p x = false := by
  induction l with
  | nil => simp
  | cons y ys ih =>
    by_cases hy : p y = true
    · rw [List.find?_cons_of_pos _ hy]
      constructor
      · rintro h
        rw [Option.some.injEq] at h
        subst h
        exact ⟨hy, [], ys, rfl, by simp⟩
      · rintro ⟨hpa, l₁, l₂, hsplit, hfirst⟩
        match l₁, hsplit with
        | [], hsplit => simp_all
        | z :: l₁, hsplit =>
          rw [List.cons_append, List.cons.injEq] at hsplit
          have hz := hfirst z (by simp)
          rw [← hsplit.1] at hz
          rw [hy] at hz
          cases hz
    · rw [List.find?_cons_of_neg _ hy, ih]
      constructor
      · rintro ⟨hpa, l₁, l₂, hsplit, hfirst⟩
        refine ⟨hpa, y :: l₁, l₂, by rw [hsplit, List.cons_append], ?_⟩
        intro x hx
        rcases List.mem_cons.mp hx with hx | hx
        · subst hx; simpa using hy
        · exact hfirst x hx
      · rintro ⟨hpa, l₁, l₂, hsplit, hfirst⟩
        match l₁, hsplit with
        | [], hsplit =>
          rw [List.nil_append] at hsplit
          rw [List.cons.injEq] at hsplit
          rw [← hsplit.1] at hpa
          exact absurd hpa hy
        | z :: l₁, hsplit =>
          rw [List.cons_append, List.cons.injEq] at hsplit
          exact ⟨hpa, l₁, l₂, hsplit.2, fun x hx => hfirst x (by simp [hx])⟩

theorem mem_infix_pyJoin (sep x : String) (l : List String) (hx : x ∈ l) :
    x.data <:+: (pyJoin sep l).data := by
  induction l with
  | nil => cases hx
  | cons y ys ih =>
    match ys with
    | [] =>
      rcases List.mem_singleton.mp hx with rfl
      exact List.infix_rfl
    | z :: zs =>
      rcases List.mem_cons.mp hx with rfl | hx
      · refine ⟨[], (sep ++ pyJoin sep (z :: zs)).data, ?_⟩
        simp [pyJoin]
      · have := ih hx
        calc x.data <:+: (pyJoin sep (z :: zs)).data := this
          _ <:+: (y ++ (sep ++ pyJoin sep (z :: zs))).data := by
              simp only [String.data_append]
              exact ⟨y.data ++ sep.data, [], by simp⟩

theorem extract_item_mem (q it : String) (h : extract_item_from_query q = some it) :
    it ∈ check_menu_items :=
  List.mem_of_find?_eq_some h

theorem extract_item_menu_test (q it : String) (h : extract_item_from_query q = some it) :
    (check_menu_items.any fun m => pyLower m == pyLower it) = true := by
  rw [List.any_eq_true]
  exact ⟨it, extract_item_mem q it h, by simp⟩

theorem check_availability_of_extracted (q it : String) (day : Option String)
    (file : Option HoursTable) (h : extract_item_from_query q = some it) :
    check_availability (some it) day file =
      .ok (availability_given_on_menu it day (get_bakery_hours file)) := by
  rw [check_availability]
  simp [extract_item_menu_test q it h]

theorem extract_day_mem (q d : String) (h : extract_day_from_query q = some d) :
    d ∈ days :=
  List.mem_of_find?_eq_some h

theorem days_ne_empty : ∀ d ∈ days, d ≠ "" := by decide

theorem days_lookup_default : ∀ d ∈ days, (List.lookup d default_bakery_hours).isSome = true := by
  decide

theorem data_getElem_append (a b : String) (n : Nat) (hn : n < a.data.length) :
    (a ++ b).data[n]? = a.data[n]? := by
  rw [String.data_append]
  exact List.getElem?_append_left hn

theorem str_ne_of_nth (s t : String) (n : Nat) (a b : Char) (hs : s.data[n]? = some a)
    (ht : t.data[n]? = some b) (hab : a ≠ b) : s ≠ t := by
  intro h
  rw [h, ht] at hs
  exact hab (Option.some.inj hs).symm

theorem not_carried_char0 (item : String) : (not_carried_response item).data[0]? = some 'N' := by
  rw [not_carried_response, data_getElem_append _ _ 0 (by decide)]
  decide

theorem not_carried_char4 (item : String) : (not_carried_response item).data[4]? = some 'w' := by
  rw [not_carried_response, data_getElem_append _ _ 4 (by decide)]
  decide

theorem specify_day_char0 (item : String) : (specify_day_response item).data[0]? = some 'Y' := by
  rw [specify_day_response, data_getElem_append _ _ 0 (by decide)]
  decide

theorem specify_day_char4 (item : String) : (specify_day_response item).data[4]? = some ' ' := by
  rw [specify_day_response, data_getElem_append _ _ 4 (by decide)]
  decide

theorem open_day_char0 (item day ht : String) :
    (open_day_response item day ht).data[0]? = some 'Y' := by
  rw [open_day_response, data_getElem_append _ _ 0 (by decide)]
  decide

theorem open_day_char4 (item day ht : String) :
    (open_day_response item day ht).data[4]? = some ' ' := by
  rw [open_day_response, data_getElem_append _ _ 4 (by decide)]
  decide

theorem closed_day_char0 (day : String) (h : HoursTable) :
    (closed_day_response day h).data[0]? = some 'N' := by
  rw [closed_day_response, data_getElem_append _ _ 0 (by decide)]
  decide

theorem closed_day_char4 (day : String) (h : HoursTable) :
    (closed_day_response day h).data[4]? = some 'o' := by
  rw [closed_day_response, data_getElem_append _ _ 4 (by decide)]
  decide

theorem unsure_day_char0 (item : String) : (unsure_day_response item).data[0]? = some 'I' := by
  rw [unsure_day_response, data_getElem_append _ _ 0 (by decide)]
  decide

theorem unsure_day_char4 (item : String) : (unsure_day_response item).data[4]? = some 'n' := by
  rw [unsure_day_response, data_getElem_append _ _ 4 (by decide)]
  decide

theorem avail_char4 (item : String) (day : Option String) (h : HoursTable) :
    (availability_given_on_menu item day h).data[4]? = some ' ' ∨
      (availability_given_on_menu item day h).data[4]? = some 'o' ∨
      (availability_given_on_menu item day h).data[4]? = some 'n' := by
  rcases day with _ | d
  · simp only [availability_given_on_menu]
    exact Or.inl (specify_day_char4 item)
  · simp only [availability_given_on_menu]
    by_cases hd : d = ""
    · rw [if_pos hd]
      exact Or.inl (specify_day_char4 item)
    · rw [if_neg hd]
      cases hl : List.lookup d h with
      | none => exact Or.inr (Or.inr (unsure_day_char4 item))
      | some info =>
        cases ho : info.isOpen with
        | true =>
          simp only [ho, if_true]
          exact Or.inl (open_day_char4 item d info.hours)
        | false =>
          simp only [ho, if_false]
          exact Or.inr (Or.inl (closed_day_char4 d h))

theorem avail_ne_not_carried (item it2 : String) (day : Option String) (h : HoursTable) :
    availability_given_on_menu item day h ≠ not_carried_response it2 := by
  rcases avail_char4 item day h with h4 | h4 | h4 <;>
    exact str_ne_of_nth _ _ 4 _ 'w' h4 (not_carried_char4 it2) (by decide)

theorem avail_char0_of_lookup (item d : String) (h : HoursTable) (hne : ¬ d = "")
    (hl : (List.lookup d h).isSome = true) :
    (availability_given_on_menu item (some d) h).data[0]? = some 'Y' ∨
      (availability_given_on_menu item (some d) h).data[0]? = some 'N' := by
  simp only [availability_given_on_menu]
  rw [if_neg hne]
  obtain ⟨info, hinfo⟩ := Option.isSome_iff_exists.mp hl
  rw [hinfo]
  dsimp only
  cases ho : info.isOpen with
  | true =>
    rw [if_pos rfl]
    exact Or.inl (open_day_char0 item d info.hours)
  | false =>
    rw [if_neg Bool.false_ne_true]
    exact Or.inr (closed_day_char0 d h)

theorem check_availability_on_menu (it : String) (day : Option String) (file : Option HoursTable)
    (h : (check_menu_items.any fun m => pyLower m == pyLower it) = true) :
    check_availability (some it) day file =
      .ok (availability_given_on_menu it day (get_bakery_hours file)) := by
  simp only [check_availability]
  rw [if_pos h]

theorem check_availability_not_on_menu (it : String) (day : Option String)
    (file : Option HoursTable)
    (h : (check_menu_items.any fun m => pyLower m == pyLower it) = false) :
    check_availability (some it) day file = .ok (not_carried_response it) := by
  simp only [check_availability]
  rw [if_neg (by rw [h]; exact Bool.false_ne_true)]

/-! The claims. -/

/-- C1, counterexample to the claim as stated: on a query whose item
extraction yields none, `check_availability` does not return a string; it
raises `AttributeError` when evaluating `item.lower()` in the menu test
(`bakery_api_simplified.py` line 91), modelled as `Except.error`. -/
theorem C1_cex_none_item_raises :
    check_availability none none none =
        Except.error "AttributeError: NoneType object has no attribute lower" ∧
      (check_availability none none none).isOk = false := by decide

/-- C1 (amended): for every non-none item (with any day and any hours
input) `check_availability` returns a string, and `process_bakery_query`
returns a non-empty string for every input; but when the extracted item is
none, `check_availability` raises `AttributeError` instead of returning a
string (see the counterexample). -/
theorem C1_resolution_total (it : String) (day : Option String) (file : Option HoursTable)
    (q : String) :
    (check_availability (some it) day file).isOk = true ∧
      0 < (process_bakery_query q).length := by
  constructor
  · simp only [check_availability]
    split <;> rfl
  · simp only [process_bakery_query]
    repeat' split
    all_goals decide

/-- C2, counterexample to the claim as stated: "good morning" contains no
menu-item substring, and the resolution is an error response (the
`AttributeError` caught by the endpoint), not a "not carried" response
with non-error source. -/
theorem C2_cex_no_item_error :
    extract_item_from_query "good morning" = none ∧
      check_availability_post "good morning" none =
        ApiResult.error "AttributeError: NoneType object has no attribute lower" := by decide

/-- C2 (amended): for every query whose item extraction yields none (that
is, containing no menu-item name as a case-insensitive substring), and for
every day value and hours input, `check_availability` raises
`AttributeError` and the POST endpoint returns an error body, not a
"not carried" response. -/
theorem C2_no_item_is_error (q : String) (day : Option String) (file : Option HoursTable)
    (h : extract_item_from_query q = none) :
    check_availability (extract_item_from_query q) day file =
        Except.error "AttributeError: NoneType object has no attribute lower" ∧
      check_availability_post q file =
        ApiResult.error "AttributeError: NoneType object has no attribute lower" := by
  rw [check_availability_post, h]
  exact ⟨rfl, rfl⟩

/-- C2 witness at a concrete input. -/
theorem C2_no_item_is_error_witness :
    extract_item_from_query "hello" = none ∧
      (check_availability (extract_item_from_query "hello") none none =
          Except.error "AttributeError: NoneType object has no attribute lower" ∧
        check_availability_post "hello" none =
          ApiResult.error "AttributeError: NoneType object has no attribute lower") :=
  ⟨by decide, C2_no_item_is_error "hello" none none (by decide)⟩

/-- C5: when the external hours data is absent or unreadable,
`get_bakery_hours` returns the built-in default table, whose keys are
exactly the seven weekday names Monday through Sunday, and the
substitution is invisible to `check_availability` (no failure is
surfaced: resolving with a missing file equals resolving with the
default table supplied). -/
theorem C5_default_hours_fallback :
    get_bakery_hours none = default_bakery_hours ∧
      default_bakery_hours.map Prod.fst = days ∧
      ∀ item day, check_availability item day none =
        check_availability item day (some default_bakery_hours) :=
  ⟨rfl, by decide, fun _ _ => rfl⟩

/-- C6: a query containing both a "bread" keyword and a "cake" keyword is
always answered with one of the four bread-category response strings
(bread has the highest priority; sub-keywords such as "chocolate" only
refine the text within the bread family and never move the query to
another category). -/
theorem C6_bread_beats_cake (question : String)
    (hb : pyIn "bread" (pyLower question) = true)
    (_hc : pyIn "cake" (pyLower question) = true) :
    process_bakery_query question ∈ bread_responses := by
  simp only [process_bakery_query]
  rw [if_pos hb]
  repeat' split
  all_goals decide

/-- C6 witness at a concrete input. -/
theorem C6_bread_beats_cake_witness :
    pyIn "bread" (pyLower "Do you have chocolate cake and bread?") = true ∧
      pyIn "cake" (pyLower "Do you have chocolate cake and bread?") = true ∧
      process_bakery_query "Do you have chocolate cake and bread?" ∈ bread_responses :=
  ⟨by decide, by decide,
   C6_bread_beats_cake "Do you have chocolate cake and bread?" (by decide) (by decide)⟩

/-- C8: the example query "Do you have gluten free bread?" resolves (via
`process_bakery_query`) to the gluten-free response naming Mondays,
Wednesdays and Fridays, with no day-closure text, while item extraction
yields "bread" and day extraction yields none. -/
theorem C8_gluten_free_example :
    process_bakery_query "Do you have gluten free bread?" =
        "We offer gluten-free bread options on Mondays, Wednesdays, and Fridays." ∧
      extract_item_from_query "Do you have gluten free bread?" = some "bread" ∧
      extract_day_from_query "Do you have gluten free bread?" = none ∧
      pyIn "gluten-free" (process_bakery_query "Do you have gluten free bread?") = true ∧
      pyIn "Monday" (process_bakery_query "Do you have gluten free bread?") = true ∧
      pyIn "Wednesday" (process_bakery_query "Do you have gluten free bread?") = true ∧
      pyIn "Friday" (process_bakery_query "Do you have gluten free bread?") = true ∧
      pyIn "closed" (process_bakery_query "Do you have gluten free bread?") = false := by
  decide

/-- C9: any item produced by `extract_item_from_query` is an element of
the menu list, passes the case-insensitive menu-membership test of
`check_availability`, and `check_availability` on it therefore takes the
on-menu path (its result is the day-logic response) and never the
"not carried" branch. -/
theorem C9_extracted_item_on_menu (q it : String)
    (h : extract_item_from_query q = some it) :
    it ∈ check_menu_items ∧
      (check_menu_items.any fun m => pyLower m == pyLower it) = true ∧
      ∀ day file, check_availability (some it) day file =
          Except.ok (availability_given_on_menu it day (get_bakery_hours file)) ∧
        check_availability (some it) day file ≠ Except.ok (not_carried_response it) := by
  refine ⟨extract_item_mem q it h, extract_item_menu_test q it h, fun day file => ?_⟩
  have heq := check_availability_of_extracted q it day file h
  refine ⟨heq, ?_⟩
  rw [heq]
  intro hcontra
  exact avail_ne_not_carried it it day (get_bakery_hours file) (Except.ok.inj hcontra)

/-- C9 witness at a concrete input. -/
theorem C9_extracted_item_on_menu_witness :
    "donut" ∈ check_menu_items ∧
      (check_menu_items.any fun m => pyLower m == pyLower "donut") = true ∧
      (check_availability (some "donut") none none =
          Except.ok (availability_given_on_menu "donut" none (get_bakery_hours none)) ∧
        check_availability (some "donut") none none ≠
          Except.ok (not_carried_response "donut")) := by
  have h := C9_extracted_item_on_menu "I want a donut" "donut" (by decide)
  exact ⟨h.1, h.2.1, h.2.2 none none⟩

/-- C10: any day produced by `extract_day_from_query` is one of the seven
canonical capitalized day names, each of which is a key of the default
hours table, so with the default table the "not sure about that day"
branch of `check_availability` is unreachable for an extracted day. -/
theorem C10_extracted_day_canonical (q d : String)
    (h : extract_day_from_query q = some d) :
    d ∈ days ∧ (List.lookup d default_bakery_hours).isSome = true ∧
      ∀ item, check_availability (some item) (some d) none ≠
        Except.ok (unsure_day_response item) := by
  have hmem := extract_day_mem q d h
  have hlook := days_lookup_default d hmem
  refine ⟨hmem, hlook, fun item => ?_⟩
  intro hcontra
  cases hmv : (check_menu_items.any fun m => pyLower m == pyLower item) with
  | true =>
    rw [check_availability_on_menu item (some d) none hmv] at hcontra
    have hEq := Except.ok.inj hcontra
    have hne := days_ne_empty d hmem
    rcases avail_char0_of_lookup item d (get_bakery_hours none) hne hlook with h0 | h0
    · exact str_ne_of_nth _ _ 0 'Y' 'I' h0 (unsure_day_char0 item) (by decide) hEq
    · exact str_ne_of_nth _ _ 0 'N' 'I' h0 (unsure_day_char0 item) (by decide) hEq
  | false =>
    rw [check_availability_not_on_menu item (some d) none hmv] at hcontra
    exact str_ne_of_nth _ _ 0 'N' 'I' (not_carried_char0 item) (unsure_day_char0 item)
      (by decide) (Except.ok.inj hcontra)

/-- C10 witness at a concrete input. -/
theorem C10_extracted_day_canonical_witness :
    "Friday" ∈ days ∧
      (List.lookup "Friday" default_bakery_hours).isSome = true ∧
      check_availability (some "bread") (some "Friday") none ≠
        Except.ok (unsure_day_response "bread") := by
  have h := C10_extracted_day_canonical "see you friday" "Friday" (by decide)
  exact ⟨h.1, h.2.1, h.2.2 "bread"⟩

/-- C3, counterexample to the claim as stated: over an hours table with no
open day, the closed-day response for "Monday" names no open day (the
joined open-day list is empty), so the claim fails for that table. -/
theorem C3_cex_all_closed :
    extract_item_from_query "cake monday" = some "cake" ∧
      extract_day_from_query "cake monday" = some "Monday" ∧
      check_availability_post "cake monday" (some all_closed_hours) =
        ApiResult.response "NO, our bakery is closed on Monday. We\x27re open ." ∧
      openDays all_closed_hours = [] := by decide

/-- C3 (amended): for every hours table with at least one open day, and
every query whose extracted item is on the menu and whose extracted day
has a closed entry, the response states closure on that day and names at
least one open day of the table. -/
theorem C3_closed_day_lists_open (q : String) (h : HoursTable) (it d : String) (info : DayInfo)
    (hit : extract_item_from_query q = some it)
    (hd : extract_day_from_query q = some d)
    (hlook : List.lookup d h = some info)
    (hclosed : info.isOpen = false)
    (hne : openDays h ≠ []) :
    ∃ t, check_availability_post q (some h) = ApiResult.response t ∧
      pyIn ("closed on " ++ d) t = true ∧
      ∃ od, od ∈ openDays h ∧ pyIn od t = true := by
  have hdmem := extract_day_mem q d hd
  have hdne := days_ne_empty d hdmem
  have havail : availability_given_on_menu it (some d) h = closed_day_response d h := by
    simp only [availability_given_on_menu]
    rw [if_neg hdne, hlook]
    dsimp only
    rw [if_neg (by rw [hclosed]; exact Bool.false_ne_true)]
  refine ⟨closed_day_response d h, ?_, ?_, ?_⟩
  · simp only [check_availability_post]
    rw [hit, hd, check_availability_of_extracted q it (some d) (some h) hit]
    simp only [get_bakery_hours]
    rw [havail]
  · apply pyIn_of_data_eq _ _ (("NO, our bakery is " : String).data)
      ((". We\x27re open " ++ (pyJoin ", " (openDays h) ++ ".")).data)
    simp only [closed_day_response, String.data_append, List.append_assoc]
    simp
  · obtain ⟨x, xs, hxs⟩ := List.exists_cons_of_ne_nil hne
    refine ⟨x, by rw [hxs]; exact List.mem_cons_self x xs, ?_⟩
    rw [pyIn_iff]
    have h1 : x.data <:+: (pyJoin ", " (openDays h)).data :=
      mem_infix_pyJoin ", " x (openDays h) (by rw [hxs]; exact List.mem_cons_self x xs)
    refine List.IsInfix.trans h1 ?_
    simp only [closed_day_response, String.data_append]
    exact ⟨("NO, our bakery is closed on " : String).data ++
        (d.data ++ (". We\x27re open " : String).data),
      ("." : String).data, by simp [List.append_assoc]⟩

/-- C3 witness at a concrete input (the default table, closed Sunday). -/
theorem C3_closed_day_lists_open_witness :
    ∃ t, check_availability_post "Can I order a cake on Sunday?" (some default_bakery_hours) =
        ApiResult.response t ∧
      pyIn ("closed on " ++ "Sunday") t = true ∧
      ∃ od, od ∈ openDays default_bakery_hours ∧ pyIn od t = true :=
  C3_closed_day_lists_open "Can I order a cake on Sunday?" default_bakery_hours "cake" "Sunday"
    ⟨false, "Closed"⟩ (by decide) (by decide) (by decide) (by decide) (by decide)

/-- C4: for every hours table and every query whose extracted item is on
the menu and whose extracted day has an entry with `isOpen = true`, the
response mentions that day and contains that day's hours text. -/
theorem C4_open_day_includes_hours (q : String) (h : HoursTable) (it d : String) (info : DayInfo)
    (hit : extract_item_from_query q = some it)
    (hd : extract_day_from_query q = some d)
    (hlook : List.lookup d h = some info)
    (hopen : info.isOpen = true) :
    ∃ t, check_availability_post q (some h) = ApiResult.response t ∧
      pyIn d t = true ∧ pyIn info.hours t = true := by
  have hdmem := extract_day_mem q d hd
  have hdne := days_ne_empty d hdmem
  have havail : availability_given_on_menu it (some d) h = open_day_response it d info.hours := by
    simp only [availability_given_on_menu]
    rw [if_neg hdne, hlook]
    dsimp only
    rw [if_pos hopen]
  refine ⟨open_day_response it d info.hours, ?_, ?_, ?_⟩
  · simp only [check_availability_post]
    rw [hit, hd, check_availability_of_extracted q it (some d) (some h) hit]
    simp only [get_bakery_hours]
    rw [havail]
  · apply pyIn_of_data_eq _ _
      (("YES, we have " : String).data ++ (it.data ++ (" available on " : String).data))
      (("! Our hours are " ++ (info.hours ++ ".")).data)
    simp only [open_day_response, String.data_append, List.append_assoc]
  · apply pyIn_of_data_eq _ _
      (("YES, we have " : String).data ++ (it.data ++ ((" available on " : String).data ++
        (d.data ++ ("! Our hours are " : String).data))))
      (("." : String).data)
    simp only [open_day_response, String.data_append, List.append_assoc]

/-- C4 witness at a concrete input (the default table, open Monday). -/
theorem C4_open_day_includes_hours_witness :
    ∃ t, check_availability_post "Can I order a croissant on Monday?"
        (some default_bakery_hours) = ApiResult.response t ∧
      pyIn "Monday" t = true ∧
      pyIn (DayInfo.mk true "7:00 AM - 7:00 PM").hours t = true :=
  C4_open_day_includes_hours "Can I order a croissant on Monday?" default_bakery_hours
    "croissant" "Monday" ⟨true, "7:00 AM - 7:00 PM"⟩ (by decide) (by decide) (by decide)
    (by decide)

/-- C7: item extraction returns exactly the first menu-catalog item (in
catalog order) whose lowercase name occurs in the lowercase query, and
none exactly when no item matches; day extraction does the same over the
seven canonical day names; the tie-break is catalog order, not query
order, as the final conjunct shows on "cake bread". -/
theorem C7_first_match_extraction (q : String) :
    (∀ it, extract_item_from_query q = some it ↔
        pyIn (pyLower it) (pyLower q) = true ∧
          ∃ l₁ l₂, check_menu_items = l₁ ++ it :: l₂ ∧
            ∀ x ∈ l₁, pyIn (pyLower x) (pyLower q) = false) ∧
      (extract_item_from_query q = none ↔
        ∀ x ∈ check_menu_items, pyIn (pyLower x) (pyLower q) = false) ∧
      (∀ d, extract_day_from_query q = some d ↔
        pyIn (pyLower d) (pyLower q) = true ∧
          ∃ l₁ l₂, days = l₁ ++ d :: l₂ ∧
            ∀ x ∈ l₁, pyIn (pyLower x) (pyLower q) = false) ∧
      (extract_day_from_query q = none ↔
        ∀ x ∈ days, pyIn (pyLower x) (pyLower q) = false) ∧
      extract_item_from_query "cake bread" = some "bread" := by
  refine ⟨fun it => ?_, ?_, fun d => ?_, ?_, by decide⟩
  · rw [extract_item_from_query, find?_eq_some_first]
  · rw [extract_item_from_query, List.find?_eq_none]
    simp only [Bool.not_eq_true]
  · rw [extract_day_from_query, find?_eq_some_first]
  · rw [extract_day_from_query, List.find?_eq_none]
    simp only [Bool.not_eq_true]

